import Mathlib

/-!
Shallow embedding of `src/lib/lib_sysconfig.py` (charm-sysconfig).

Time is modelled as integer seconds since the Unix epoch. Python's
`datetime.min.replace(tzinfo=timezone.utc)` (0001-01-01T00:00:00+00:00) has
epoch timestamp -62135596800, which we take as the constant `datetimeMin`.
The unit-data key/value store backing `BootResourceState` is modelled as a
function from keys to optional stored timestamps. Side-effecting procedures
are modelled as functions returning a record of the externally observable
effects (files rendered, tracker records written, commands invoked).
-/

namespace Sysconfig

/-- Epoch timestamp of Python's `datetime.min` with UTC timezone
(0001-01-01T00:00:00+00:00). -/
def datetimeMin : Int := -62135596800

/-- Source `boot_time()`: current wall clock minus the host uptime read from
`/proc/uptime`. The two environment readings are passed in as arguments. -/
def boot_time (now uptime : Int) : Int := now - uptime

/-- Source constant `GRUB_CONF`. -/
def GRUB_CONF : String := "/etc/default/grub.d/90-sysconfig.cfg"

/-- Source constant `CPUFREQUTILS`. -/
def CPUFREQUTILS : String := "/etc/default/cpufrequtils"

/-- Source constant `KERNEL`. -/
def KERNEL : String := "kernel"

/-- Source constant `GRUB_DEFAULT` applied to a kernel version, i.e.
`GRUB_DEFAULT.format(version)`. -/
def grub_default_for (version : String) : String :=
  "Advanced options for Ubuntu>Ubuntu, with Linux " ++ version

/-- The unit-data store: a map from string keys to the optional stored
timestamp (`timestamp.timestamp()` floats, modelled as integers). -/
def DB : Type := String → Option Int

/-- The empty store: nothing was ever recorded. -/
def emptyDB : DB := fun _ => none

/-- Source `BootResourceState.key_for`: the db key for a resource name. -/
def key_for (resource_name : String) : String :=
  "sysconfig.boot_resource." ++ resource_name

/-- Source `BootResourceState.set_resource`: store the current wall-clock
timestamp under the resource's key. `now` is the wall clock at the call. -/
def set_resource (db : DB) (resource_name : String) (now : Int) : DB :=
  fun k => if k = key_for resource_name then some now else db k

/-- Source `BootResourceState.get_resource_changed_timestamp`: the stored
timestamp if present, `datetime.min` (UTC) otherwise. -/
def get_resource_changed_timestamp (db : DB) (resource_name : String) : Int :=
  match db (key_for resource_name) with
  | some tfloat => tfloat
  | none => datetimeMin

/-- Source `BootResourceState.resources_changed_since_boot`: freshly compute
`boot_time` and keep the names whose recorded timestamp is strictly greater. -/
def resources_changed_since_boot (db : DB) (now uptime : Int)
    (resource_names : List String) : List String :=
  let boot_ts := boot_time now uptime
  resource_names.filter
    (fun name => decide (boot_ts < get_resource_changed_timestamp db name))

/-- C1: `resources_changed_since_boot` returns exactly those input names whose
recorded last-changed timestamp is strictly greater than the freshly computed
boot time, and the output is a sublist of the input (order preserved). -/
theorem resources_changed_since_boot_spec (db : DB) (now uptime : Int)
    (names : List String) :
    (∀ n, n ∈ resources_changed_since_boot db now uptime names ↔
      n ∈ names ∧ boot_time now uptime < get_resource_changed_timestamp db n) ∧
    List.Sublist (resources_changed_since_boot db now uptime names) names := by
  constructor
  · intro n
    simp [resources_changed_since_boot, List.mem_filter]
  · exact List.filter_sublist names

/-- C2: `get_resource_changed_timestamp` returns the stored timestamp when a
record exists for the name and `datetime.min` (UTC) when the name was never
recorded; it is a total function (never fails). -/
theorem get_resource_changed_timestamp_spec (db : DB) (name : String) :
    (∀ t, db (key_for name) = some t →
      get_resource_changed_timestamp db name = t) ∧
    (db (key_for name) = none →
      get_resource_changed_timestamp db name = datetimeMin) := by
  constructor
  · intro t ht
    simp [get_resource_changed_timestamp, ht]
  · intro hn
    simp [get_resource_changed_timestamp, hn]

/-- C3 counterexample: with an empty store (so "grub" was never recorded) and
the finite boot time 0 (now = 100, uptime = 100), the never-recorded domain
"grub" is NOT included in the result, refuting the claim that it always is. -/
theorem unrecorded_domain_not_included_counterexample :
    "grub" ∉ resources_changed_since_boot emptyDB 100 100 ["grub"] := by
  decide

/-- C3 amended: a never-recorded domain is EXCLUDED from
`resources_changed_since_boot` whenever the boot time is at least
`datetimeMin`; since `datetime.min` is the minimum representable timestamp,
every realizable boot time satisfies this, so unrecorded domains are never
reported as changed since boot. -/
theorem unrecorded_domain_excluded (db : DB) (now uptime : Int) (d : String)
    (names : List String) (hdb : db (key_for d) = none)
    (hb : datetimeMin ≤ boot_time now uptime) :
    d ∉ resources_changed_since_boot db now uptime names := by
  intro hmem
  have h := ((resources_changed_since_boot_spec db now uptime names).1 d).mp hmem
  rw [get_resource_changed_timestamp, hdb] at h
  exact absurd (lt_of_le_of_lt hb h.2) (lt_irrefl _)

/-- C3 amended witness: concrete evaluation of `unrecorded_domain_excluded`
on the empty store at boot time 0. -/
theorem unrecorded_domain_excluded_witness :
    "grub" ∉ resources_changed_since_boot emptyDB 200 200 ["grub", "kernel"] :=
  unrecorded_domain_excluded emptyDB 200 200 "grub" ["grub", "kernel"] rfl
    (by decide)

/-- C4: recording a resource and immediately querying it reports it changed,
provided the wall clock at the record step is strictly after the boot
instant. -/
theorem record_then_changed_since_boot (db : DB) (d : String)
    (recordNow now uptime : Int) (h : boot_time now uptime < recordNow) :
    resources_changed_since_boot (set_resource db d recordNow) now uptime [d]
      = [d] := by
  simp [resources_changed_since_boot, get_resource_changed_timestamp,
    set_resource, h]

/-- C4 witness: record "kernel" at time 50 with boot time 10 (now = 100,
uptime = 90); the query reports exactly ["kernel"]. -/
theorem record_then_changed_since_boot_witness :
    resources_changed_since_boot (set_resource emptyDB "kernel" 50) 100 90
      ["kernel"] = ["kernel"] :=
  record_then_changed_since_boot emptyDB "kernel" 50 100 90 (by decide)

/-- Dict assignment `d[k] = v` with Python semantics: an existing key keeps
its position and gets the new value, a new key is appended. -/
def dictInsert (d : List (String × String)) (k v : String) :
    List (String × String) :=
  if d.any (fun p => p.1 == k) then
    d.map (fun p => if p.1 == k then (k, v) else p)
  else d ++ [(k, v)]

/-- Loop body of source `parse_config_flags`: a fragment is kept iff it
contains an `=`; the source's second guard `len(pair.split('=', 1)) == 2` is
implied by `'=' in pair` and adds nothing. The key is the text before the
first `=`, the value the text between the first and second `=`. -/
def parse_step (acc : List (String × String)) (pair : String) :
    List (String × String) :=
  if pair.contains '=' then
    dictInsert acc ((pair.splitOn "=").getD 0 "") ((pair.splitOn "=").getD 1 "")
  else acc

/-- Source `parse_config_flags`: drop every space, split on commas, fold the
kept fragments into a dict. -/
def parse_config_flags (config_flags : String) : List (String × String) :=
  ((config_flags.replace " " "").splitOn ",").foldl parse_step []

/-- Charm configuration knobs read by `SysConfigHelper` (the accessor
properties of the source class). -/
structure CharmConfig where
  enable_container : Bool
  reservation : String
  cpu_range : String
  hugepages : String
  hugepagesz : String
  raid_autodetection : String
  enable_pti : Bool
  enable_iommu : Bool
  grub_config_flags : String
  systemd_config_flags : String
  kernel_version : String
  update_grub : Bool
  governor : String

/-- Source `SysConfigHelper._is_kernel_already_running`: the configured
kernel version equals the running kernel release (exact string match). -/
def is_kernel_already_running (cfg : CharmConfig) (running : String) : Bool :=
  cfg.kernel_version == running

/-- The template context built by source `update_grub_file`. A Python dict
key that is only conditionally inserted is modelled as an `Option` field
(`none` = key absent); the two flag keys are inserted with value `True`, so
presence alone matters and they are modelled as `Bool`. -/
structure GrubContext where
  cpu_range : Option String
  hugepages : Option String
  hugepagesz : Option String
  raid : Option String
  pti_off : Bool
  iommu : Bool
  grub_config_flags : List (String × String)
  grub_default : Option String

/-- Context construction of source `update_grub_file` (lines 210-227):
`running` is the value of `running_kernel()`. -/
def update_grub_file_context (cfg : CharmConfig) (running : String) :
    GrubContext :=
  { cpu_range := if cfg.reservation == "isolcpus" then some cfg.cpu_range
      else none
    hugepages := if cfg.hugepages != "" then some cfg.hugepages else none
    hugepagesz := if cfg.hugepagesz != "" then some cfg.hugepagesz else none
    raid := if cfg.raid_autodetection != "" then some cfg.raid_autodetection
      else none
    pti_off := !cfg.enable_pti
    iommu := cfg.enable_iommu
    grub_config_flags := parse_config_flags cfg.grub_config_flags
    grub_default :=
      if cfg.kernel_version != "" && !(is_kernel_already_running cfg running)
      then some (grub_default_for cfg.kernel_version) else none }

/-- Observable effects of source `install_configured_kernel`: whether
`apt_update` ran, the package list passed to `apt_install`, and the tracker
record written via `set_resource`. -/
structure KernelInstallEffects where
  apt_updated : Bool
  installed : List String
  recorded : Option String
deriving DecidableEq

/-- Source `install_configured_kernel` (lines 243-257) as an effect
function. -/
def install_configured_kernel (cfg : CharmConfig) (running : String) :
    KernelInstallEffects :=
  if cfg.kernel_version == "" || is_kernel_already_running cfg running then
    { apt_updated := false, installed := [], recorded := none }
  else
    { apt_updated := true
      installed := ["linux-image-" ++ cfg.kernel_version,
        "linux-modules-extra-" ++ cfg.kernel_version]
      recorded := some KERNEL }

/-- Command line of source `update_cpufreq` disabling the ondemand
initscript. -/
def UPDATE_RC_REMOVE : List String :=
  ["/usr/sbin/update-rc.d", "-f", "ondemand", "remove", ">", "/dev/null",
    "2>&1"]

/-- Command line of source `update_cpufreq` re-enabling the ondemand
initscript. -/
def UPDATE_RC_DEFAULTS : List String :=
  ["/usr/sbin/update-rc.d", "-f", "ondemand", "defaults", ">", "/dev/null",
    "2>&1"]

/-- Observable effects of source `update_cpufreq`: the governor rendered into
`/etc/default/cpufrequtils` (none = no render), the tracker record written by
`_render_boot_resource`, the `update-rc.d` command invoked (none = not
invoked), and whether the cpufrequtils service was restarted. -/
structure CpufreqEffects where
  rendered_governor : Option String
  recorded : Option String
  ondemand_call : Option (List String)
  service_restarted : Bool
deriving DecidableEq

/-- Source `update_cpufreq` (lines 259-280) as an effect function. `codename`
is `host.get_distrib_codename()`, `container` is `host.is_container()`. -/
def update_cpufreq (cfg : CharmConfig) (codename : String)
    (container : Bool) : CpufreqEffects :=
  if cfg.governor == "" || cfg.governor == "performance" ||
      cfg.governor == "powersave" then
    { rendered_governor := some cfg.governor
      recorded := some CPUFREQUTILS
      ondemand_call :=
        if codename == "xenial" && !container then
          if cfg.governor != "" then some UPDATE_RC_REMOVE
          else some UPDATE_RC_DEFAULTS
        else none
      service_restarted := true }
  else
    { rendered_governor := none, recorded := none, ondemand_call := none
      service_restarted := false }

/-- Observable effects of source `remove_grub_configuration`: whether the
grub override file was deleted, whether `_update_grub` invoked
`/usr/sbin/update-grub`, and the tracker record written. -/
structure RemoveGrubEffects where
  removed : Bool
  update_grub_called : Bool
  recorded : Option String
deriving DecidableEq

/-- Source `remove_grub_configuration` (lines 282-296) as an effect function.
`grub_conf_exists` is `os.path.exists(GRUB_CONF)`, `container` is
`host.is_container()`; `_update_grub` runs update-grub iff the update-grub
config is set and the host is not a container. -/
def remove_grub_configuration (cfg : CharmConfig) (grub_conf_exists : Bool)
    (container : Bool) : RemoveGrubEffects :=
  if !grub_conf_exists then
    { removed := false, update_grub_called := false, recorded := none }
  else
    { removed := true
      update_grub_called := cfg.update_grub && !container
      recorded := some GRUB_CONF }

/-- C5: the grub context carries the boot-menu-default pin (naming the
configured kernel version) iff a kernel version is declared and it differs
from the running kernel release; otherwise the pin is absent. -/
theorem grub_default_pin_iff (cfg : CharmConfig) (running : String) :
    ((update_grub_file_context cfg running).grub_default ≠ none ↔
      cfg.kernel_version ≠ "" ∧ cfg.kernel_version ≠ running) ∧
    ∀ s, (update_grub_file_context cfg running).grub_default = some s →
      s = grub_default_for cfg.kernel_version := by
  have hgd : (update_grub_file_context cfg running).grub_default =
      if cfg.kernel_version ≠ "" ∧ cfg.kernel_version ≠ running
      then some (grub_default_for cfg.kernel_version) else none := by
    by_cases h1 : cfg.kernel_version = "" <;>
      by_cases h2 : cfg.kernel_version = running <;>
        simp [update_grub_file_context, is_kernel_already_running, h1, h2]
  rw [hgd]
  constructor
  · split_ifs with h
    · simp [h]
    · simp [h]
  · intro s hs
    split_ifs at hs with h
    exact (Option.some_inj.mp hs).symm

/-- C6: `install_configured_kernel` is a complete no-op (no apt action, no
tracker record) when no kernel version is declared or the declared version
equals the running release; otherwise it installs exactly the versioned
image and extra-modules packages and records the kernel domain. -/
theorem install_configured_kernel_spec (cfg : CharmConfig) (running : String) :
    ((cfg.kernel_version = "" ∨ cfg.kernel_version = running) →
      install_configured_kernel cfg running =
        { apt_updated := false, installed := [], recorded := none }) ∧
    (cfg.kernel_version ≠ "" → cfg.kernel_version ≠ running →
      install_configured_kernel cfg running =
        { apt_updated := true
          installed := ["linux-image-" ++ cfg.kernel_version,
            "linux-modules-extra-" ++ cfg.kernel_version]
          recorded := some KERNEL }) := by
  constructor
  · rintro (h | h) <;>
      simp [install_configured_kernel, is_kernel_already_running, h]
  · intro h1 h2
    simp [install_configured_kernel, is_kernel_already_running, h1, h2]

/-- Concrete configuration with the invalid governor "eco". -/
def cfgEco : CharmConfig :=
  ⟨false, "off", "", "", "", "", true, false, "", "", "", true, "eco"⟩

/-- C7: with a governor outside the valid enumeration, `update_cpufreq`
performs no side effect: no render, no tracker record, no ondemand toggle,
no service restart. -/
theorem update_cpufreq_invalid_governor_no_effects (cfg : CharmConfig)
    (codename : String) (container : Bool)
    (h : ¬(cfg.governor = "" ∨ cfg.governor = "performance" ∨
      cfg.governor = "powersave")) :
    update_cpufreq cfg codename container =
      { rendered_governor := none, recorded := none, ondemand_call := none,
        service_restarted := false } := by
  push_neg at h
  obtain ⟨h1, h2, h3⟩ := h
  simp [update_cpufreq, h1, h2, h3]

/-- C7 witness: governor "eco" on xenial outside a container yields no
effect at all. -/
theorem update_cpufreq_invalid_governor_no_effects_witness :
    update_cpufreq cfgEco "xenial" false =
      { rendered_governor := none, recorded := none, ondemand_call := none,
        service_restarted := false } :=
  update_cpufreq_invalid_governor_no_effects cfgEco "xenial" false (by decide)

/-- Concrete configuration with governor "performance". -/
def cfgPerf : CharmConfig :=
  ⟨false, "off", "", "", "", "", true, false, "", "", "", true, "performance"⟩

/-- Concrete configuration with the governor cleared. -/
def cfgNoGov : CharmConfig :=
  ⟨false, "off", "", "", "", "", true, false, "", "", "", true, ""⟩

/-- C9: on codename "xenial" outside a container, for any valid governor,
`update_cpufreq` invokes the ondemand-disabling command when the governor is
set and the re-enabling command when it is cleared; the branch depends only
on whether the governor is the empty string. -/
theorem update_cpufreq_ondemand_toggle (cfg : CharmConfig)
    (codename : String) (container : Bool) (hx : codename = "xenial")
    (hc : container = false)
    (hv : cfg.governor = "" ∨ cfg.governor = "performance" ∨
      cfg.governor = "powersave") :
    (update_cpufreq cfg codename container).ondemand_call =
      some (if cfg.governor = "" then UPDATE_RC_DEFAULTS
        else UPDATE_RC_REMOVE) := by
  subst hx hc
  rcases hv with h | h | h <;> simp [update_cpufreq, h]

/-- C9 witness: on xenial outside a container, governor "performance" leads
to the `update-rc.d ... remove` call and governor "" to the
`update-rc.d ... defaults` call. -/
theorem update_cpufreq_ondemand_toggle_witness :
    (update_cpufreq cfgPerf "xenial" false).ondemand_call =
      some UPDATE_RC_REMOVE ∧
    (update_cpufreq cfgNoGov "xenial" false).ondemand_call =
      some UPDATE_RC_DEFAULTS := by
  constructor
  · have h := update_cpufreq_ondemand_toggle cfgPerf "xenial" false rfl rfl
      (Or.inr (Or.inl rfl))
    simpa using h
  · have h := update_cpufreq_ondemand_toggle cfgNoGov "xenial" false rfl rfl
      (Or.inl rfl)
    simpa using h

/-- Concrete configuration with the update-grub toggle enabled. -/
def cfgUpdateGrub : CharmConfig :=
  ⟨false, "off", "", "", "", "", true, false, "", "", "", true, ""⟩

/-- C8 counterexample: with the override file present, update-grub enabled
and no container, `remove_grub_configuration` DOES write a tracker record
(`set_resource(GRUB_CONF)` in the source), refuting the claim that the
removal path records no tracker change for the grub domain. -/
theorem remove_grub_records_change_counterexample :
    ¬((remove_grub_configuration cfgUpdateGrub true false).recorded = none) := by
  decide

/-- C8 amended: when the override file exists, `remove_grub_configuration`
deletes it, runs update-grub iff the update-grub toggle is set and the host
is not a container, and records a tracker change for the grub config file;
when the file does not exist, the call is a silent no-op. -/
theorem remove_grub_configuration_spec (cfg : CharmConfig)
    (grub_conf_exists container : Bool) :
    (grub_conf_exists = true →
      remove_grub_configuration cfg grub_conf_exists container =
        { removed := true, update_grub_called := cfg.update_grub && !container,
          recorded := some GRUB_CONF }) ∧
    (grub_conf_exists = false →
      remove_grub_configuration cfg grub_conf_exists container =
        { removed := false, update_grub_called := false, recorded := none }) := by
  constructor <;> intro h <;> subst h <;> simp [remove_grub_configuration]

/-- Folding the guarded loop body over all fragments equals folding the
unguarded dict insertion over only the fragments that contain an `=`. -/
theorem foldl_parse_step_filter (l : List String)
    (acc : List (String × String)) :
    l.foldl parse_step acc =
      (l.filter (fun pair => pair.contains '=')).foldl
        (fun acc2 pair => dictInsert acc2 ((pair.splitOn "=").getD 0 "")
          ((pair.splitOn "=").getD 1 "")) acc := by
  induction l generalizing acc with
  | nil => rfl
  | cons p t ih =>
    by_cases h : p.contains '=' = true
    · simp only [List.foldl_cons, List.filter_cons, h, if_pos, parse_step]
      rw [ih]
    · simp only [List.foldl_cons, List.filter_cons, h, parse_step]
      simp only [Bool.false_eq_true, if_false]
      rw [ih]

/-- C10: `parse_config_flags` removes every space, splits on commas, silently
discards fragments with no `=`, and maps each kept fragment to the pair of
the text before the first `=` and the text between the first and second `=`
(dropping anything after a second `=`), with last-wins dict insertion. -/
theorem parse_config_flags_spec (s : String) :
    parse_config_flags s =
      (((s.replace " " "").splitOn ",").filter
        (fun pair => pair.contains '=')).foldl
        (fun acc pair => dictInsert acc ((pair.splitOn "=").getD 0 "")
          ((pair.splitOn "=").getD 1 "")) [] :=
  foldl_parse_step_filter _ []

end Sysconfig
